import Mathlib

/-!
Verification development for the Dfautotrans trading scripts.

The repository consists of two Tampermonkey userscripts,
`src/step1_marketplace_searcher.js` (marketplace search and buying) and
`src/js/step2_auto_seller.js` (inventory selling), together with
`src/trading_config.json`.  This file gives a shallow embedding of the
decision logic of those scripts: JavaScript numbers are modelled as
rationals, `parseInt`/`parseFloat` results as `Option` values (with the
`|| default` coercions of the source made explicit), and the DOM state
consumed by each function as an explicit record of the already-parsed
values the function reads.
-/

namespace Dfautotrans

/-! ## Embedding of src/step1_marketplace_searcher.js -/

/-- The `CONFIG` object of step 1 (the fields the analysed logic reads):
`maxPricePerUnit: 11.6`, `maxRows: 10`, `autoBuy: false`,
`checkInventory: true`. -/
structure StepConfig where
  maxPricePerUnit : ℚ
  maxRows : ℕ
  autoBuy : Bool
  checkInventory : Bool
deriving DecidableEq

/-- The concrete `CONFIG` of `src/step1_marketplace_searcher.js` (11.6 = 58/5). -/
def stepConfig : StepConfig :=
  { maxPricePerUnit := 58/5, maxRows := 10, autoBuy := false, checkInventory := true }

/-- One `.fakeItem` DOM row as read by `analyzeSearchResults`:
`parseFloat(item.dataset.price)` and `parseInt(item.dataset.quantity)`,
`none` standing for a NaN parse result. -/
structure DomItem where
  price : Option ℚ
  quantity : Option ℤ
deriving DecidableEq

/-- `parseFloat(item.dataset.price) || 0`: NaN (and 0 itself) collapse to 0. -/
def itemPrice (d : DomItem) : ℚ :=
  match d.price with
  | none => 0
  | some p => p

/-- `parseInt(item.dataset.quantity) || 1`: NaN and 0 collapse to 1, so the
effective quantity is never 0. -/
def itemQuantity (d : DomItem) : ℤ :=
  match d.quantity with
  | none => 1
  | some q => if q = 0 then 1 else q

/-- `price / quantity` as computed in the selection loop. -/
def pricePerUnit (d : DomItem) : ℚ :=
  itemPrice d / (itemQuantity d : ℚ)

/-- One entry of the `goodDeals` array built by `analyzeSearchResults`
(the DOM element reference and the `toFixed(2)` display string are not
modelled; `actualPrice`/`actualPricePerUnit` carry the exact values). -/
structure GoodDeal where
  index : ℕ
  price : ℚ
  quantity : ℤ
  actualPrice : ℚ
  actualPricePerUnit : ℚ
deriving DecidableEq

/-- The selection loop body of `analyzeSearchResults`: push while
`pricePerUnit <= CONFIG.maxPricePerUnit`, `break` at the first item over
the ceiling (prices are sorted ascending on the page). -/
def selectDeals (maxPrice : ℚ) : List DomItem → ℕ → List GoodDeal
  | [], _ => []
  | d :: rest, idx =>
    if pricePerUnit d ≤ maxPrice then
      { index := idx + 1, price := itemPrice d, quantity := itemQuantity d,
        actualPrice := itemPrice d, actualPricePerUnit := pricePerUnit d }
        :: selectDeals maxPrice rest (idx + 1)
    else []

/-- The `{ items, count }` record returned by `analyzeSearchResults`. -/
structure SearchResults where
  items : List GoodDeal
  count : ℕ
deriving DecidableEq

/-- `analyzeSearchResults`: examine at most the first `CONFIG.maxRows`
`.fakeItem` rows and collect the good deals.  An absent or empty
`#itemDisplay` is the `domItems = []` case. -/
def analyzeSearchResults (cfg : StepConfig) (domItems : List DomItem) : SearchResults :=
  let deals := selectDeals cfg.maxPricePerUnit (domItems.take cfg.maxRows) 0
  { items := deals, count := deals.length }

/-- Total quantity over a list of selected deals (as printed by
`printResults` and compared by the free-slot claims). -/
def totalSelectedQuantity (deals : List GoodDeal) : ℤ :=
  (deals.map GoodDeal.quantity).sum

/-- The DOM state read by `checkInventoryStatus`:
the `(\d+)\s*/\s*(\d+)` match of `#inventoryInfo` text (method 1),
the `.item` element count (method 2), and the same regex match over
`#invController` text (method 3); `none` stands for an absent element or a
failed match.  The regex only matches digit runs, so matched values are
natural numbers. -/
structure InvDom where
  inventoryInfoMatch : Option (ℕ × ℕ)
  itemCount : ℕ
  invControllerMatch : Option (ℕ × ℕ)
deriving DecidableEq

/-- The `inventoryStatus` record built by `checkInventoryStatus`
(`usagePercentage`, a display string, is not modelled; the catch-all
error branch cannot fire in the embedded, already-parsed reading). -/
structure InventoryStatus where
  totalSlots : ℤ
  usedSlots : ℤ
  availableSlots : ℤ
  isFull : Bool
  isNearFull : Bool
deriving DecidableEq

/-- `checkInventoryStatus`: the sequential update of
`(usedSlots, totalSlots)` through methods 1-3 and the final fallback.
`availableSlots` is recomputed at the end in both final branches, so only
the running `(used, total)` pair matters before that. -/
def checkInventoryStatus (dom : InvDom) : InventoryStatus :=
  let p1 : ℤ × ℤ :=
    match dom.inventoryInfoMatch with
    | some m => ((m.1 : ℤ), (m.2 : ℤ))
    | none => (0, 0)
  let p2 : ℤ × ℤ :=
    if p1.2 = 0 ∧ 0 < dom.itemCount then ((dom.itemCount : ℤ), 40) else p1
  let p3 : ℤ × ℤ :=
    match dom.invControllerMatch with
    | some m => if p2.2 = 0 then ((m.1 : ℤ), (m.2 : ℤ)) else p2
    | none => p2
  let used : ℤ := if p3.2 = 0 then (dom.itemCount : ℤ) else p3.1
  let total : ℤ := if p3.2 = 0 then 40 else p3.2
  let available : ℤ := total - used
  { totalSlots := total, usedSlots := used, availableSlots := available,
    isFull := decide (available ≤ 0), isNearFull := decide (available ≤ 3) }

/-- Step 8 of `executeStep1`: auto-buy runs only when `CONFIG.autoBuy` is
set, the analysis found at least one deal, and the inventory status (when
one was read) is not `isFull`; a merely `isNearFull` status still buys. -/
def shouldAutoBuy (cfg : StepConfig) (results : SearchResults)
    (inv : Option InventoryStatus) : Bool :=
  cfg.autoBuy && decide (0 < results.count) &&
    !(match inv with
      | some s => s.isFull
      | none => false)

/-- The page state one `buyItem` call observes: whether the stored element
reference is still a clickable element, whether the `[data-action="buyItem"]`
button is present, and whether any of the DOM calls throws. -/
structure BuyPageState where
  elementValid : Bool
  buyButtonPresent : Bool
  clickThrows : Bool
deriving DecidableEq

/-- `buyItem`: returns `false` when the element reference is invalid or the
buy button is missing; every thrown error is caught and also yields `false`;
otherwise the click sequence runs and the function returns `true`
(regardless of what `handleConfirmDialog` manages to do). -/
def buyItem (p : BuyPageState) : Bool :=
  if p.clickThrows then false
  else if p.elementValid then
    if p.buyButtonPresent then true else false
  else false

/-- The counting loop of `autoBuyItems` over the selected deals, the page
state at the i-th attempt given by `pages i`. -/
def autoBuyLoop (pages : ℕ → BuyPageState) : List GoodDeal → ℕ → ℕ × ℕ
  | [], _ => (0, 0)
  | _ :: rest, i =>
    let r := autoBuyLoop pages rest (i + 1)
    if buyItem (pages i) then (r.1 + 1, r.2) else (r.1, r.2 + 1)

/-- `autoBuyItems`: returns `{ success, failed }`; short-circuits to
`(0, 0)` when auto-buy is off or nothing was selected, otherwise attempts
every selected deal in order with no further guard. -/
def autoBuyItems (cfg : StepConfig) (results : SearchResults)
    (pages : ℕ → BuyPageState) : ℕ × ℕ :=
  if !cfg.autoBuy || results.count = 0 then (0, 0)
  else autoBuyLoop pages results.items 0

/-- The step 1 `CONFIG` with `autoBuy` switched on: the configuration under
which the buying phase actually runs (the checked-in file ships with
`autoBuy: false`). -/
def buyEnabledConfig : StepConfig := { stepConfig with autoBuy := true }

/-! ## Embedding of src/js/step2_auto_seller.js -/

/-- The `CONFIG.humanBehavior.progressiveDelay` object of step 2:
`enabled: false`, `multiplier: 1.2`, `maxMultiplier: 2.0`,
`resetAfter: 180000`. -/
structure ProgressiveDelayConfig where
  enabled : Bool
  multiplier : ℚ
  maxMultiplier : ℚ
  resetAfter : ℤ
deriving DecidableEq

/-- The concrete `progressiveDelay` configuration of the script. -/
def progressiveDelayConfig : ProgressiveDelayConfig :=
  { enabled := false, multiplier := 6/5, maxMultiplier := 2, resetAfter := 180000 }

/-- The script initialises `let currentDelayMultiplier = 1.0` and no
statement in the file ever reassigns it, so this is its value at every
`humanWait` call. -/
def initialDelayMultiplier : ℚ := 1

/-- `humanDelay(baseMs, variationMs)` with the `Math.random()` sample `r`
made an explicit argument:
`Math.max(500, Math.floor(baseMs + (r * variationMs * 2 - variationMs)))`. -/
def humanDelay (baseMs variationMs r : ℚ) : ℤ :=
  max 500 ⌊baseMs + (r * variationMs * 2 - variationMs)⌋

/-- The delay `humanWait(baseMs, variationMs)` actually sleeps for: the
`humanDelay` sample, scaled by the current multiplier only when
`progressiveDelay.enabled` is set. -/
def humanWaitDelay (pd : ProgressiveDelayConfig) (mult : ℚ)
    (baseMs variationMs r : ℚ) : ℤ :=
  let d := humanDelay baseMs variationMs r
  if pd.enabled then ⌊(d : ℚ) * mult⌋ else d

/-- Step 2 `CONFIG.sellPrice` (11.66 = 583/50). -/
def sellPrice : ℚ := 583/50

/-- Step 2 `CONFIG.removeDecimalFromTotal`. -/
def removeDecimalFromTotal : Bool := true

/-- The record returned by `calculateSellPrice`. -/
structure SellPriceInfo where
  unitPrice : ℚ
  totalPrice : ℚ
  quantity : ℤ
deriving DecidableEq

/-- `calculateSellPrice(quantity)`: total is `CONFIG.sellPrice * quantity`,
floored when `removeDecimalFromTotal`; the unit price is the fixed
configured `CONFIG.sellPrice`. -/
def calculateSellPrice (quantity : ℤ) : SellPriceInfo :=
  let tp : ℚ := sellPrice * (quantity : ℚ)
  { unitPrice := sellPrice,
    totalPrice := if removeDecimalFromTotal then ((⌊tp⌋ : ℤ) : ℚ) else tp,
    quantity := quantity }

/-- The persisted statistics record of `getSalesStats`. -/
structure SalesStats where
  totalSuccess : ℕ
  totalFailed : ℕ
  totalQuantity : ℤ
  totalValue : ℚ
  lastSaleTime : ℤ
deriving DecidableEq

/-- `updateSalesStats(success, quantity, value)` with `Date.now()` passed
explicitly as `now`: on success increment `totalSuccess`, `totalQuantity`
and `totalValue`; on failure increment only `totalFailed`; always stamp
`lastSaleTime`. -/
def updateSalesStats (now : ℤ) (success : Bool) (quantity : ℤ) (value : ℚ)
    (stats : SalesStats) : SalesStats :=
  let s :=
    if success then
      { stats with
        totalSuccess := stats.totalSuccess + 1,
        totalQuantity := stats.totalQuantity + quantity,
        totalValue := stats.totalValue + value }
    else
      { stats with totalFailed := stats.totalFailed + 1 }
  { s with lastSaleTime := now }

/-! ## Values from src/trading_config.json -/

/-- `buying.max_purchases_per_cycle` in `src/trading_config.json`. -/
def maxPurchasesPerCycle : ℕ := 10

/-- `selling.markup_percentage` in `src/trading_config.json` (0.2). -/
def markupPercentage : ℚ := 1/5

/-- `selling.min_markup_percentage` in `src/trading_config.json` (0.1). -/
def minMarkupPercentage : ℚ := 1/10

/-- `selling.max_markup_percentage` in `src/trading_config.json` (0.5). -/
def maxMarkupPercentage : ℚ := 1/2

/-! ## Spec-side definitions for the refinement comparisons

The spec (section 3 and 4.1) describes a `ResourceSnapshot` with five
resource axes and a five-condition full-block predicate; the scripts only
ever read the inventory axis.  These definitions follow the spec text and
are compared against the code-derived ones. -/

/-- The `ResourceSnapshot` of spec section 3: all non-negative integers. -/
structure ResourceSnapshot where
  cashOnHand : ℕ
  bankBalance : ℕ
  inventoryUsed : ℕ
  inventoryCapacity : ℕ
  storageUsed : ℕ
  storageCapacity : ℕ
  activeListings : ℕ
  listingCapacity : ℕ
deriving DecidableEq

/-- Spec section 4.1 full-block condition, verbatim: `cashOnHand==0 ∧
bankBalance==0 ∧ inventoryUsed≥inventoryCapacity ∧
storageUsed≥storageCapacity ∧ activeListings≥listingCapacity`. -/
def specFullBlock (s : ResourceSnapshot) : Prop :=
  s.cashOnHand = 0 ∧ s.bankBalance = 0 ∧
    s.inventoryCapacity ≤ s.inventoryUsed ∧
    s.storageCapacity ≤ s.storageUsed ∧
    s.listingCapacity ≤ s.activeListings

instance (s : ResourceSnapshot) : Decidable (specFullBlock s) := by
  unfold specFullBlock
  infer_instance

/-- The block predicate the code actually evaluates on a snapshot: the
`isFull` flag of `checkInventoryStatus`, fed the snapshot inventory pair
through the `#inventoryInfo` match (the only snapshot data the script
reads). -/
def codeIsBlocked (s : ResourceSnapshot) : Bool :=
  (checkInventoryStatus
    { inventoryInfoMatch := some (s.inventoryUsed, s.inventoryCapacity),
      itemCount := 0, invControllerMatch := none }).isFull

/-- Spec section 4.3 ask price: `acquisitionUnitPrice × (1+markup)` with
the markup clamped into `[minMarkup, maxMarkup]`. -/
def specAskPrice (acquisitionUnitPrice : ℚ) : ℚ :=
  acquisitionUnitPrice *
    (1 + min maxMarkupPercentage (max minMarkupPercentage markupPercentage))

/-- The `HoldingLot` of spec section 3 (the `itemKind` and `acquiredAt`
fields play no role in the priced claims and are omitted). -/
structure HoldingLot where
  quantity : ℤ
  acquisitionUnitPrice : ℚ
deriving DecidableEq

/-! ## Helper lemmas -/

/-- Every deal pushed by the selection loop satisfied the push condition. -/
theorem selectDeals_mem_le (maxPrice : ℚ) :
    ∀ (l : List DomItem) (i : ℕ) (o : GoodDeal),
      o ∈ selectDeals maxPrice l i → o.actualPricePerUnit ≤ maxPrice := by
  intro l
  induction l with
  | nil => intro i o h; simp [selectDeals] at h
  | cons d rest ih =>
    intro i o h
    by_cases hc : pricePerUnit d ≤ maxPrice
    · rw [selectDeals, if_pos hc] at h
      rcases List.mem_cons.mp h with h1 | h1
      · simp [h1, hc]
      · exact ih (i + 1) o h1
    · rw [selectDeals, if_neg hc] at h
      simp at h

/-- The selection loop pushes at most one deal per examined row. -/
theorem selectDeals_length_le (maxPrice : ℚ) :
    ∀ (l : List DomItem) (i : ℕ), (selectDeals maxPrice l i).length ≤ l.length := by
  intro l
  induction l with
  | nil => intro i; simp [selectDeals]
  | cons d rest ih =>
    intro i
    rw [selectDeals]
    split
    · simpa using ih (i + 1)
    · simp

/-- The buy loop counts every deal exactly once: success plus failure
counts add up to the number of deals. -/
theorem autoBuyLoop_counts (pages : ℕ → BuyPageState) :
    ∀ (l : List GoodDeal) (i : ℕ),
      (autoBuyLoop pages l i).1 + (autoBuyLoop pages l i).2 = l.length := by
  intro l
  induction l with
  | nil => intro i; simp [autoBuyLoop]
  | cons d rest ih =>
    intro i
    have h := ih (i + 1)
    rw [autoBuyLoop]
    split <;> simp <;> omega

/-! ## Claim theorems -/

/-- Claim C1: every offer selected by `analyzeSearchResults` has unit price
(price divided by quantity) at most the configured per-item price ceiling
`CONFIG.maxPricePerUnit`. -/
theorem c1_selected_unit_price_le_ceiling (cfg : StepConfig)
    (domItems : List DomItem) (o : GoodDeal)
    (h : o ∈ (analyzeSearchResults cfg domItems).items) :
    o.actualPricePerUnit ≤ cfg.maxPricePerUnit :=
  selectDeals_mem_le cfg.maxPricePerUnit (domItems.take cfg.maxRows) 0 o h

/-- Witness for C1: a concrete offer of price 10 and quantity 1 is selected
under the shipped configuration and indeed respects the 11.6 ceiling. -/
theorem c1_selected_unit_price_le_ceiling_witness :
    ({ index := 1, price := 10, quantity := 1, actualPrice := 10,
       actualPricePerUnit := 10 } : GoodDeal).actualPricePerUnit ≤
      stepConfig.maxPricePerUnit :=
  c1_selected_unit_price_le_ceiling stepConfig [⟨some 10, some 1⟩]
    { index := 1, price := 10, quantity := 1, actualPrice := 10,
      actualPricePerUnit := 10 }
    (by
      simp [analyzeSearchResults, selectDeals, stepConfig, pricePerUnit,
        itemPrice, itemQuantity]
      norm_num)

/-- Counterexample to claim C2: with 2 free inventory slots (38 of 40 used)
the evaluator still selects an offer of quantity 100, so the total selected
quantity exceeds the free slot count.  `analyzeSearchResults` never looks
at the inventory. -/
theorem c2_counterexample :
    ¬ (totalSelectedQuantity
          (analyzeSearchResults stepConfig [⟨some 10, some 100⟩]).items ≤
        (checkInventoryStatus ⟨some (38, 40), 0, none⟩).availableSlots) := by
  simp [analyzeSearchResults, selectDeals, totalSelectedQuantity,
    checkInventoryStatus, pricePerUnit, itemPrice, itemQuantity, stepConfig]
  norm_num

/-- Claim C2 as amended: the only inventory gate on buying is that
`executeStep1` skips the auto-buy step entirely whenever the inventory
status reads `isFull`; no quantity bound against free slots exists. -/
theorem c2_autobuy_skipped_when_inventory_full (cfg : StepConfig)
    (results : SearchResults) (s : InventoryStatus) (h : s.isFull = true) :
    shouldAutoBuy cfg results (some s) = false := by
  simp [shouldAutoBuy, h]

/-- Witness for the amended C2: a full inventory status suppresses the
auto-buy step under the shipped configuration. -/
theorem c2_autobuy_skipped_when_inventory_full_witness :
    shouldAutoBuy stepConfig ⟨[], 0⟩ (some ⟨40, 40, 0, true, true⟩) = false :=
  c2_autobuy_skipped_when_inventory_full stepConfig ⟨[], 0⟩
    ⟨40, 40, 0, true, true⟩ rfl

/-- Counterexample to claim C3: on a snapshot with saturated inventory but
positive cash (100), the block predicate the code evaluates (the `isFull`
flag of `checkInventoryStatus`) already holds, while the five-condition
full-block definition of the spec does not: the code declares the block on
inventory saturation alone. -/
theorem c3_counterexample :
    ¬ (codeIsBlocked ⟨100, 0, 40, 40, 50, 50, 30, 30⟩ = true ↔
        specFullBlock ⟨100, 0, 40, 40, 50, 50, 30, 30⟩) := by
  simp [codeIsBlocked, checkInventoryStatus, specFullBlock]

/-- Claim C3 as amended: for snapshots with positive inventory capacity,
the code block predicate holds iff the inventory is saturated
(`inventoryUsed >= inventoryCapacity`); cash, bank, storage and listings
are not consulted. -/
theorem c3_blocked_iff_inventory_saturated (s : ResourceSnapshot)
    (h : 0 < s.inventoryCapacity) :
    codeIsBlocked s = true ↔ s.inventoryCapacity ≤ s.inventoryUsed := by
  have hne : ((s.inventoryCapacity : ℤ)) ≠ 0 := by positivity
  simp [codeIsBlocked, checkInventoryStatus, hne]

/-- Witness for the amended C3: a 40-of-40 inventory snapshot is declared
blocked. -/
theorem c3_blocked_iff_inventory_saturated_witness :
    codeIsBlocked ⟨0, 0, 40, 40, 50, 50, 30, 30⟩ = true :=
  (c3_blocked_iff_inventory_saturated ⟨0, 0, 40, 40, 50, 50, 30, 30⟩
    (by norm_num)).mpr (by norm_num)

/-- Counterexample to claim C4: three consecutive waits under the shipped
configuration (progressive delay disabled, multiplier never updated) with
random samples 0.9, 0.1, 0.5 produce delays 1400, 600, 1000 ms, which are
not strictly increasing; no exponential schedule is applied. -/
theorem c4_counterexample :
    ¬ (humanWaitDelay progressiveDelayConfig initialDelayMultiplier
          1000 500 (9/10) <
        humanWaitDelay progressiveDelayConfig initialDelayMultiplier
          1000 500 (1/10) ∧
      humanWaitDelay progressiveDelayConfig initialDelayMultiplier
          1000 500 (1/10) <
        humanWaitDelay progressiveDelayConfig initialDelayMultiplier
          1000 500 (1/2)) := by
  have h1 : humanWaitDelay progressiveDelayConfig initialDelayMultiplier
      1000 500 (9/10) = 1400 := by
    simp [humanWaitDelay, humanDelay, progressiveDelayConfig]
    norm_num
  have h2 : humanWaitDelay progressiveDelayConfig initialDelayMultiplier
      1000 500 (1/10) = 600 := by
    simp [humanWaitDelay, humanDelay, progressiveDelayConfig]
    norm_num
  rw [h1, h2]
  intro h
  exact absurd h.1 (by norm_num)

/-- Claim C4 as amended: with the shipped configuration every wait length
is an independent sample; it is bounded below by the hard 500 ms minimum
and above by base plus variation, but carries no increasing schedule. -/
theorem c4_delay_bounds (baseMs variationMs r : ℚ) (hv : 0 ≤ variationMs)
    (h0 : 0 ≤ r) (h1 : r ≤ 1) :
    500 ≤ humanWaitDelay progressiveDelayConfig initialDelayMultiplier
        baseMs variationMs r ∧
      humanWaitDelay progressiveDelayConfig initialDelayMultiplier
          baseMs variationMs r ≤
        max 500 ⌊baseMs + variationMs⌋ := by
  have hpd : progressiveDelayConfig.enabled = false := rfl
  constructor
  · simp [humanWaitDelay, hpd, humanDelay]
  · simp only [humanWaitDelay, hpd, humanDelay, if_false, Bool.false_eq_true]
    apply max_le_max le_rfl
    apply Int.floor_le_floor
    have : r * variationMs ≤ variationMs := mul_le_of_le_one_left hv h1
    linarith

/-- Witness for the amended C4: the default-parameter wait with sample 0.5
lies between 500 and 1500 ms. -/
theorem c4_delay_bounds_witness :
    500 ≤ humanWaitDelay progressiveDelayConfig initialDelayMultiplier
        1000 500 (1/2) ∧
      humanWaitDelay progressiveDelayConfig initialDelayMultiplier
          1000 500 (1/2) ≤
        max 500 ⌊(1000 : ℚ) + 500⌋ :=
  c4_delay_bounds 1000 500 (1/2) (by norm_num) (by norm_num) (by norm_num)

/-- Counterexample to claim C5: for a lot acquired at unit price 100, the
asking unit price the code computes is the fixed configured 11.66, not the
markup price 120 demanded by the spec formula; `calculateSellPrice` never
reads an acquisition price. -/
theorem c5_counterexample :
    (calculateSellPrice (⟨1, 100⟩ : HoldingLot).quantity).unitPrice ≠
      specAskPrice (⟨1, 100⟩ : HoldingLot).acquisitionUnitPrice := by
  simp [calculateSellPrice, specAskPrice, sellPrice, markupPercentage,
    minMarkupPercentage, maxMarkupPercentage]
  norm_num

/-- Claim C5 as amended: `calculateSellPrice` returns the fixed configured
unit price `CONFIG.sellPrice` (11.66) independent of any acquisition data,
and the listed total is that unit price times the quantity, floored because
`removeDecimalFromTotal` is set. -/
theorem c5_fixed_sell_price (q : ℤ) :
    (calculateSellPrice q).unitPrice = sellPrice ∧
      (calculateSellPrice q).totalPrice = ((⌊sellPrice * (q : ℚ)⌋ : ℤ) : ℚ) := by
  simp [calculateSellPrice, removeDecimalFromTotal]

/-- Claim C6: the number of offers selected in one cycle is at most
`buying.max_purchases_per_cycle` from `trading_config.json` (10); the
selection loop examines at most `CONFIG.maxRows = 10` rows and pushes at
most one deal per row. -/
theorem c6_selection_count_le_cycle_cap (domItems : List DomItem) :
    (analyzeSearchResults stepConfig domItems).count ≤ maxPurchasesPerCycle := by
  have h1 := selectDeals_length_le stepConfig.maxPricePerUnit
    (domItems.take stepConfig.maxRows) 0
  have h2 : (domItems.take stepConfig.maxRows).length ≤ stepConfig.maxRows := by
    simp [List.length_take]
  exact le_trans (le_trans h1 h2) (by norm_num [stepConfig, maxPurchasesPerCycle])

/-- Counterexample to claim C7: when the parsed inventory text reads 45 of
40 slots used, `checkInventoryStatus` reports `availableSlots = -5`; the
free count is not clamped at 0. -/
theorem c7_counterexample :
    ¬ (0 ≤ (checkInventoryStatus ⟨some (45, 40), 0, none⟩).availableSlots) := by
  simp [checkInventoryStatus]

/-- Claim C7 as amended: `availableSlots` is always exactly
`totalSlots - usedSlots`, with no clamping, so it goes negative whenever
the used count exceeds the capacity; no storage or listing free counts are
computed anywhere in the scripts. -/
theorem c7_available_slots_unclamped (dom : InvDom) :
    (checkInventoryStatus dom).availableSlots =
      (checkInventoryStatus dom).totalSlots -
        (checkInventoryStatus dom).usedSlots := by
  simp [checkInventoryStatus]

/-- Counterexample to claim C8: even when a freshly read inventory status
is full, the buying loop still attempts the selected offer (one attempt is
made, not zero): `autoBuyItems` re-validates nothing between attempts. -/
theorem c8_counterexample :
    (checkInventoryStatus ⟨some (40, 40), 0, none⟩).isFull = true ∧
      (autoBuyItems buyEnabledConfig
            (analyzeSearchResults buyEnabledConfig [⟨some 10, some 100⟩])
            (fun _ => ⟨true, true, false⟩)).1 +
          (autoBuyItems buyEnabledConfig
            (analyzeSearchResults buyEnabledConfig [⟨some 10, some 100⟩])
            (fun _ => ⟨true, true, false⟩)).2 = 1 := by
  constructor
  · simp [checkInventoryStatus]
  · have hsel : analyzeSearchResults buyEnabledConfig [⟨some 10, some 100⟩] =
        ⟨[{ index := 1, price := 10, quantity := 100, actualPrice := 10,
            actualPricePerUnit := 1/10 }], 1⟩ := by
      simp [analyzeSearchResults, selectDeals, buyEnabledConfig, stepConfig,
        pricePerUnit, itemPrice, itemQuantity]
      norm_num
    rw [hsel]
    rfl

/-- Claim C8 as amended: with auto-buy enabled the loop attempts every
selected offer unconditionally (success and failure counts always sum to
the selection count, with no re-validation of funds or space), and each
attempt returns an ordinary boolean: true exactly when nothing threw, the
element reference was valid and the buy button was present, so a vanished
offer yields false rather than an uncaught exception. -/
theorem c8_attempts_unconditional_and_boolean (cfg : StepConfig)
    (domItems : List DomItem) (pages : ℕ → BuyPageState)
    (h : cfg.autoBuy = true) :
    (autoBuyItems cfg (analyzeSearchResults cfg domItems) pages).1 +
        (autoBuyItems cfg (analyzeSearchResults cfg domItems) pages).2 =
      (analyzeSearchResults cfg domItems).count ∧
    ∀ p : BuyPageState,
      buyItem p = (!p.clickThrows && p.elementValid && p.buyButtonPresent) := by
  constructor
  · by_cases h0 : (analyzeSearchResults cfg domItems).count = 0
    · simp [autoBuyItems, h, h0]
    · have hc := autoBuyLoop_counts pages
        (analyzeSearchResults cfg domItems).items 0
      simp [autoBuyItems, h, h0, hc]
      rfl
  · intro p
    rcases p with ⟨ev, bp, ct⟩
    cases ev <;> cases bp <;> cases ct <;> rfl

/-- Witness for the amended C8: one selected offer, one attempt made, and
a vanished buy button at that attempt counted as an ordinary failure. -/
theorem c8_attempts_unconditional_and_boolean_witness :
    (autoBuyItems buyEnabledConfig
          (analyzeSearchResults buyEnabledConfig [⟨some 10, some 1⟩])
          (fun _ => ⟨true, false, false⟩)).1 +
        (autoBuyItems buyEnabledConfig
          (analyzeSearchResults buyEnabledConfig [⟨some 10, some 1⟩])
          (fun _ => ⟨true, false, false⟩)).2 =
      (analyzeSearchResults buyEnabledConfig [⟨some 10, some 1⟩]).count ∧
      buyItem ⟨true, false, false⟩ = false :=
  ⟨(c8_attempts_unconditional_and_boolean buyEnabledConfig
      [⟨some 10, some 1⟩] (fun _ => ⟨true, false, false⟩) rfl).1,
    (c8_attempts_unconditional_and_boolean buyEnabledConfig
      [⟨some 10, some 1⟩] (fun _ => ⟨true, false, false⟩) rfl).2
      ⟨true, false, false⟩⟩

/-- Claim C10: updateSalesStats on failure increments only `totalFailed`;
on success it increments `totalSuccess` and adds the quantity and value;
both paths stamp `lastSaleTime` with the current time and leave every other
field unchanged. -/
theorem c10_update_sales_stats_frame (stats : SalesStats) (now : ℤ)
    (q : ℤ) (v : ℚ) :
    (updateSalesStats now false q v stats).totalFailed = stats.totalFailed + 1 ∧
    (updateSalesStats now false q v stats).totalSuccess = stats.totalSuccess ∧
    (updateSalesStats now false q v stats).totalQuantity = stats.totalQuantity ∧
    (updateSalesStats now false q v stats).totalValue = stats.totalValue ∧
    (updateSalesStats now false q v stats).lastSaleTime = now ∧
    (updateSalesStats now true q v stats).totalSuccess = stats.totalSuccess + 1 ∧
    (updateSalesStats now true q v stats).totalQuantity = stats.totalQuantity + q ∧
    (updateSalesStats now true q v stats).totalValue = stats.totalValue + v ∧
    (updateSalesStats now true q v stats).totalFailed = stats.totalFailed ∧
    (updateSalesStats now true q v stats).lastSaleTime = now := by
  simp [updateSalesStats]

end Dfautotrans
